import Mathlib

/-!
Verification of the nofx decision-orchestration engine against its
natural-language specification.

This file shallowly embeds the relevant Go functions of the repository in
Lean 4, using `ℚ` for Go `float64` arithmetic and `String` for the Go string
enums (`direction`, `side`, `confidence`, ...), and proves or refutes the
spec claims about them.  Decimal constants of the source are written as
explicit fractions (`65/100` for `0.65`, ...) so that all definitions
evaluate by kernel reduction.  Each embedded definition mirrors one Go
function:

* `requiredMinProbOf`            — the account-drawdown probability floor in
                                   `GetFullDecisionPredictive` (decision/agents/portfolio_risk.go)
* `shouldClosePositionWithReason`— decision/agents/portfolio_risk.go
* `evaluateRecord`               — memory/manager.go
* `validatePrediction`           — decision/agents/prediction_agent.go
* `calculatePositionFromPrediction` and its stages
                                 — decision/agents/portfolio_risk.go
* `trailingStopUpdate`           — the trailing-stop block of `GetPositions`
                                   (trader/binance_futures.go)
* `entryDecide`                  — `EntryTimingEngine.Decide` (decision/agents)

Logging, string formatting and I/O are elided; all numeric logic and control
flow are kept exactly as in the source.
-/

/-- Go constant `MinStopMultiple = 4.5` (decision/agents/constants.go). -/
def MinStopMultiple : ℚ := 45/10

/-- Go constant `MinRiskReward = 2.0` (decision/agents/constants.go). -/
def MinRiskReward : ℚ := 2

/-- Go constant `LiquidationMarginRate = 0.95` (decision/agents/constants.go). -/
def LiquidationMarginRate : ℚ := 95/100

/-- Go constant `LiquidationSafetyRatio = 0.3` (decision/agents/constants.go). -/
def LiquidationSafetyRatio : ℚ := 3/10

/-- Go `int(x)` conversion from `float64`: truncation toward zero. -/
def truncQ (q : ℚ) : Int := if 0 ≤ q then ⌊q⌋ else ⌈q⌉

/-- The `types.Prediction` record (decision/types), with the fields the risk
and validation code reads.  `reasoning`/`keyFactors` are elided (never used
numerically). -/
structure Prediction where
  symbol : String
  direction : String
  probability : ℚ
  expectedMove : ℚ
  bestCase : ℚ
  worstCase : ℚ
  timeframe : String
  confidence : String
  riskLevel : String
deriving Repr, DecidableEq

/-- The default probability threshold set at the top of
`GetFullDecisionPredictive` (`minProbability := 0.65`; the Sharpe-based
override is commented out in the source). -/
def defaultMinProbability : ℚ := 65/100

/-- The account-drawdown gate of `GetFullDecisionPredictive`
(decision/agents/portfolio_risk.go, STEP 3): given the base `minProbability`
and `ctx.Account.TotalPnLPct`, returns the required minimum probability and
whether opening is forbidden outright (`accountRiskViolation != ""`). -/
def requiredMinProbOf (minProbability accountTotalPnLPct : ℚ) : ℚ × Bool :=
  if accountTotalPnLPct < -20 then (101/100, true)
  else if accountTotalPnLPct < -15 then (max minProbability (85/100), false)
  else if accountTotalPnLPct < -10 then (max minProbability (78/100), false)
  else if accountTotalPnLPct < -5 then (max minProbability (70/100), false)
  else (minProbability, false)

/-- Reason labels for `shouldClosePositionWithReason` (the Go function
returns a formatted string; only its identity matters to the claims). -/
inductive CloseReason where
  | directionFlip
  | hardStop
  | profitTake
  | stale
deriving Repr, DecidableEq

/-- `shouldClosePositionWithReason` (decision/agents/portfolio_risk.go).
`holdMinutes` stands for `time.Since(pos.OpenTime)` in minutes.  Returns
`some reason` when the position is to be closed, `none` for hold.  The Go
code nests the 30-minute check inside the direction-flip condition and falls
through when it fails; the flattened conjunction below is equivalent. -/
def shouldClosePositionWithReason (side : String) (unrealizedPnLPct holdMinutes : ℚ)
    (predDirection : String) (predProbability : ℚ) : Option CloseReason :=
  if side = "long" ∧ predDirection = "down" ∧ predProbability > 65/100 ∧ holdMinutes > 30 then
    some .directionFlip
  else if side = "short" ∧ predDirection = "up" ∧ predProbability > 65/100 ∧ holdMinutes > 30 then
    some .directionFlip
  else if unrealizedPnLPct < -20 then
    some .hardStop
  else if unrealizedPnLPct > 20 ∧ predDirection = "neutral" then
    some .profitTake
  else if holdMinutes > 24 * 60 ∧ unrealizedPnLPct < 5 then
    some .stale
  else
    none

/-- Result fields written by `evaluateRecord` (memory/manager.go). -/
structure EvalResult where
  actualMove : ℚ
  isCorrect : Bool
  accuracy : ℚ
deriving Repr, DecidableEq

/-- `evaluateRecord` (memory/manager.go): computes the realized move (as a
percentage, `×100` as in the Go source), direction correctness and accuracy
of a prediction record. -/
def evaluateRecord (entryPrice finalPrice : ℚ) (direction : String)
    (expectedMove : ℚ) : EvalResult :=
  let actualMove := (finalPrice - entryPrice) / entryPrice * 100
  let isCorrect :=
    if direction = "up" ∧ actualMove > 0 then true
    else if direction = "down" ∧ actualMove < 0 then true
    else if direction = "neutral" ∧ |actualMove| < 1 then true
    else false
  let accuracy :=
    if expectedMove ≠ 0 then 1 - min (|expectedMove - actualMove| / |expectedMove|) 1
    else 1/2
  ⟨actualMove, isCorrect, accuracy⟩

/-- Error labels for `validatePrediction` (decision/agents/prediction_agent.go
returns formatted error strings; only their identity matters). -/
inductive VErr where
  | emptySymbol
  | badDirection
  | badProbability
  | badExpectedMove
  | badBestCase
  | badWorstCase
  | badConfidence
  | badTimeframe
  | badRiskLevel
  | bestNotAboveWorst
  | upBestNonpos
  | upWorstPos
  | upExpNonpos
  | downWorstNonneg
  | downExpNonneg
  | neutralProbHigh
  | highProbLowConf
  | lowProbHighConf
deriving Repr, DecidableEq

/-- Whether an `Except` is a success. -/
def exceptIsOk {ε α : Type} : Except ε α → Bool
  | .ok _ => true
  | .error _ => false

/-- The legacy-confidence conversion inside `validatePrediction`
(`very_high → high`, `very_low → low`). -/
def normConf (c : String) : String :=
  if c = "very_high" then "high" else if c = "very_low" then "low" else c

/-- The legacy-risk-level conversion inside `validatePrediction`. -/
def normRisk (r : String) : String :=
  if r = "very_high" then "high" else if r = "very_low" then "low" else r

/-- The field/range checks of `validatePrediction`
(decision/agents/prediction_agent.go), in source order, as the first error
found (`none` = all pass). -/
def rangeError (p : Prediction) : Option VErr :=
  if p.symbol = "" then some .emptySymbol
  else if ¬ (p.direction = "up" ∨ p.direction = "down" ∨ p.direction = "neutral") then
    some .badDirection
  else if p.probability < 1/2 ∨ p.probability > 1 then some .badProbability
  else if |p.expectedMove| > 10 then some .badExpectedMove
  else if |p.bestCase| > 15 then some .badBestCase
  else if |p.worstCase| > 15 then some .badWorstCase
  else if ¬ (p.confidence = "high" ∨ p.confidence = "medium" ∨ p.confidence = "low"
      ∨ p.confidence = "very_high" ∨ p.confidence = "very_low") then
    some .badConfidence
  else if ¬ (p.timeframe = "1h" ∨ p.timeframe = "4h" ∨ p.timeframe = "24h") then
    some .badTimeframe
  else if ¬ (p.riskLevel = "low" ∨ p.riskLevel = "medium" ∨ p.riskLevel = "high"
      ∨ p.riskLevel = "very_low" ∨ p.riskLevel = "very_high") then
    some .badRiskLevel
  else if p.bestCase ≤ p.worstCase then some .bestNotAboveWorst
  else none

/-- The direction-sign consistency `switch` of `validatePrediction`
(decision/agents/prediction_agent.go), as the first error found. -/
def signConsistencyError (p : Prediction) : Option VErr :=
  if p.direction = "up" ∧ p.bestCase ≤ 0 then some .upBestNonpos
  else if p.direction = "up" ∧ p.worstCase > 0 then some .upWorstPos
  else if p.direction = "up" ∧ p.expectedMove ≤ 0 then some .upExpNonpos
  else if p.direction = "down" ∧ p.worstCase ≥ 0 then some .downWorstNonneg
  else if p.direction = "down" ∧ p.expectedMove ≥ 0 then some .downExpNonneg
  else if p.direction = "neutral" ∧ p.probability > 60/100 then some .neutralProbHigh
  else none

/-- The probability/confidence consistency checks at the end of
`validatePrediction` (on the normalized confidence). -/
def confConsistencyError (p : Prediction) : Option VErr :=
  if p.probability ≥ 80/100 ∧ normConf p.confidence = "low" then some .highProbLowConf
  else if p.probability < 55/100 ∧ normConf p.confidence = "high" then some .lowProbHighConf
  else none

/-- `validatePrediction` (decision/agents/prediction_agent.go): checks the
prediction's fields, direction-sign consistency and probability/confidence
consistency, in source order; normalizes legacy `very_high`/`very_low`
confidence and risk levels (a mutation of the record in Go, here carried in
the returned value). -/
def validatePrediction (p : Prediction) : Except VErr Prediction :=
  match rangeError p with
  | some e => .error e
  | none =>
    match signConsistencyError p with
    | some e => .error e
    | none =>
      match confConsistencyError p with
      | some e => .error e
      | none =>
        .ok { p with confidence := normConf p.confidence, riskLevel := normRisk p.riskLevel }

/-- A `down` prediction with `worstCase = -3 < 0` (and `expectedMove < 0`)
that `validatePrediction` accepts. -/
def downAcceptedPred : Prediction :=
  { symbol := "BTCUSDT", direction := "down", probability := 7/10,
    expectedMove := -2, bestCase := -1, worstCase := -3,
    timeframe := "1h", confidence := "high", riskLevel := "medium" }

/-- A concrete `up` prediction accepted by `validatePrediction`. -/
def upAcceptedPred : Prediction :=
  { symbol := "BTCUSDT", direction := "up", probability := 7/10,
    expectedMove := 2, bestCase := 3, worstCase := -1,
    timeframe := "1h", confidence := "high", riskLevel := "medium" }

/-- Error labels for `calculatePositionFromPrediction`
(decision/agents/portfolio_risk.go returns formatted error strings). -/
inductive CalcErr where
  | bestTooSmall
  | worstTooSmall
  | invalidPayoff
  | negativeKelly
  | insufficientFunds
  | finalMarginInsufficient
deriving Repr, DecidableEq

/-- The values returned by `calculatePositionFromPrediction`, plus the
prediction as mutated by the function (in Go the `*types.Prediction` argument
is updated in place; here the final state is carried in the result). -/
structure CalcResult where
  positionSize : ℚ
  leverage : Int
  stopLoss : ℚ
  takeProfit : ℚ
  adjusted : Prediction
deriving Repr, DecidableEq

/-- The sign-fix block at the top of `calculatePositionFromPrediction`
(decision/agents/portfolio_risk.go): repairs best/worst-case sign errors of
the LLM for `down` (three cases) and `up` (two cases) predictions, mutating
the prediction.  Returns (bestCase, worstCase) after the fix. -/
def fixSigns (direction : String) (best worst : ℚ) : ℚ × ℚ :=
  if direction = "down" then
    if best > 0 then (-|worst|, |best|)
    else if best < 0 ∧ worst < 0 then
      (if |best| < |worst| then (worst, -best) else (best, -worst))
    else if worst < 0 then (best, -worst)
    else (best, worst)
  else if direction = "up" then
    if best < 0 then (|worst|, -|best|)
    else if worst > 0 then (best, -worst)
    else (best, worst)
  else (best, worst)

/-- `minCaseValue := math.Max(0.5, atrPct*MinStopMultiple)` in
`calculatePositionFromPrediction`. -/
def minCaseValueOf (atrPct : ℚ) : ℚ := max (1/2) (atrPct * MinStopMultiple)

/-- The best/worst-case magnitude floor of `calculatePositionFromPrediction`:
a case smaller in magnitude than `minCase` is pushed out to `±minCase`,
keeping the Go sign convention (`>= 0` keeps the positive sign). -/
def raiseCase (minCase v : ℚ) : ℚ :=
  if |v| < minCase then (if 0 ≤ v then minCase else -minCase) else v

/-- The R/R enforcement block of `calculatePositionFromPrediction`: when
`|best|/|worst| < 2.0` the best case is overwritten with `∓2·|worst|`
(negative for `down`, positive otherwise). -/
def enforceRR (direction : String) (best worst : ℚ) : ℚ :=
  if direction = "down" then
    if |best| / |worst| < 2 then -(|worst| * 2) else best
  else
    if |best| / |worst| < 2 then |worst| * 2 else best

/-- The in-place mutation of the prediction performed by
`calculatePositionFromPrediction` before sizing: sign fix, magnitude floor,
R/R floor, in source order. -/
def adjustPrediction (p : Prediction) (atrPct : ℚ) : Prediction :=
  let bw := fixSigns p.direction p.bestCase p.worstCase
  let mc := minCaseValueOf atrPct
  let b2 := raiseCase mc bw.1
  let w2 := raiseCase mc bw.2
  { p with bestCase := enforceRR p.direction b2 w2, worstCase := w2 }

/-- The payoff-ratio computation of `calculatePositionFromPrediction`
(profit magnitude over loss magnitude, with the both-negative `down`
compatibility branch of the source). -/
def payoffRatioOf (direction : String) (best worst : ℚ) : Except CalcErr ℚ :=
  if direction = "down" then
    if |best| < 1/1000000 then .error .bestTooSmall
    else if best < 0 ∧ worst < 0 then
      .ok (if |worst| > |best| then |worst| / |best| else |best| / |worst|)
    else .ok (|best| / |worst|)
  else
    if |worst| < 1/1000000 then .error .worstTooSmall
    else .ok (best / |worst|)

/-- The Kelly fraction `f = (p·b − (1−p))/b` of
`calculatePositionFromPrediction`. -/
def kellyOf (winRate payoffRatio : ℚ) : ℚ :=
  (winRate * payoffRatio - (1 - winRate)) / payoffRatio

/-- The leverage selection of `calculatePositionFromPrediction`: the base
leverage scaled by risk level (`low` 1.0, `medium` 0.8, `high` 0.6, default
0.8; Go `int(...)` truncates), floored at 1. -/
def leverageFromRisk (baseLeverage : Int) (riskLevel : String) : Int :=
  let lv :=
    if riskLevel = "low" then baseLeverage
    else if riskLevel = "medium" then truncQ ((baseLeverage : ℚ) * (8/10))
    else if riskLevel = "high" then truncQ ((baseLeverage : ℚ) * (6/10))
    else truncQ ((baseLeverage : ℚ) * (8/10))
  if lv < 1 then 1 else lv

/-- The BTC/ETH-vs-altcoin base leverage selection of
`calculatePositionFromPrediction`. -/
def baseLeverageFor (btcEthLeverage altcoinLeverage : Int) (symbol : String) : Int :=
  if symbol = "BTCUSDT" ∨ symbol = "ETHUSDT" then btcEthLeverage else altcoinLeverage

/-- The margin check of `calculatePositionFromPrediction` (lines 948-972):
if the margin of `ps` exceeds 90% of the available balance, the position is
cut to `0.9·available·leverage`; if that falls below the 100 USDT minimum it
is raised back to 100, erroring when even 100's margin exceeds the (full)
available balance. -/
def applyMarginCap (ps : ℚ) (leverage : Int) (availableBalance : ℚ) : Except CalcErr ℚ :=
  if ps / (leverage : ℚ) > availableBalance * (9/10) then
    if availableBalance * (9/10) * (leverage : ℚ) < 100 then
      if 100 / (leverage : ℚ) > availableBalance then .error .insufficientFunds
      else .ok 100
    else .ok (availableBalance * (9/10) * (leverage : ℚ))
  else .ok ps

/-- The liquidation-safety block of `calculatePositionFromPrediction`
(lines 988-1016): when the stop crosses `price·(1 ∓ 0.95/leverage)` the
leverage is cut by 30% (Go `int(...)`, floored at 1) and the liquidation
price recomputed; the source performs no further check after that. -/
def liqAdjustLeverage (isUp : Bool) (currentPrice stopLoss : ℚ) (leverage : Int) : Int :=
  let marginRate := LiquidationMarginRate / (leverage : ℚ)
  if isUp then
    if stopLoss ≤ currentPrice * (1 - marginRate) then
      (let l := truncQ ((leverage : ℚ) * (7/10)); if l < 1 then 1 else l)
    else leverage
  else
    if stopLoss ≥ currentPrice * (1 + marginRate) then
      (let l := truncQ ((leverage : ℚ) * (7/10)); if l < 1 then 1 else l)
    else leverage

/-- The liquidation price `entry × (1 ∓ LiquidationMarginRate/leverage)` as
computed in `calculatePositionFromPrediction`. -/
def liquidationPriceOf (isUp : Bool) (currentPrice : ℚ) (leverage : Int) : ℚ :=
  if isUp then currentPrice * (1 - LiquidationMarginRate / (leverage : ℚ))
  else currentPrice * (1 + LiquidationMarginRate / (leverage : ℚ))

/-- `calculatePositionFromPrediction` (decision/agents/portfolio_risk.go):
sign fixes and floors on the prediction, payoff ratio, full-Kelly sizing
with the 60%-of-equity cap, leverage from risk level, 100 USDT minimum,
margin cap, stop/TP from the adjusted best/worst case (the same formulas for
both directions in the source), one liquidation-safety leverage reduction,
and the final margin check. -/
def calculatePositionFromPrediction (btcEthLeverage altcoinLeverage : Int)
    (p0 : Prediction) (currentPrice atr14 totalEquity availableBalance : ℚ) :
    Except CalcErr CalcResult :=
  let atrPct := atr14 / currentPrice * 100
  let p := adjustPrediction p0 atrPct
  match payoffRatioOf p.direction p.bestCase p.worstCase with
  | .error e => .error e
  | .ok payoffRatio =>
    if payoffRatio ≤ 0 then .error .invalidPayoff
    else
      let kellyFraction := kellyOf p.probability payoffRatio
      if kellyFraction ≤ 0 then .error .negativeKelly
      else
        let conservativeKelly := kellyFraction * 1
        let ps0 := totalEquity * conservativeKelly
        let ps1 := if ps0 > totalEquity * (6/10) then totalEquity * (6/10) else ps0
        let leverage0 :=
          leverageFromRisk (baseLeverageFor btcEthLeverage altcoinLeverage p.symbol) p.riskLevel
        let ps2 := if ps1 < 100 then 100 else ps1
        match applyMarginCap ps2 leverage0 availableBalance with
        | .error e => .error e
        | .ok positionSize =>
          let stopLoss := currentPrice * (1 + p.worstCase / 100)
          let takeProfit := currentPrice * (1 + p.bestCase / 100)
          let leverage1 := liqAdjustLeverage (p.direction = "up") currentPrice stopLoss leverage0
          if positionSize / (leverage1 : ℚ) > availableBalance * (9/10) then
            .error .finalMarginInsufficient
          else .ok ⟨positionSize, leverage1, stopLoss, takeProfit, p⟩

/-- A valid `up` prediction whose best/worst cases imply R/R = 1 < 2. -/
def lowRRPred : Prediction :=
  { symbol := "SOLUSDT", direction := "up", probability := 7/10,
    expectedMove := 2, bestCase := 1, worstCase := -1,
    timeframe := "1h", confidence := "high", riskLevel := "low" }

/-- A valid `up` prediction whose stop (worstCase −25%) crosses the
liquidation price even after the one 30% leverage reduction. -/
def stillUnsafePred : Prediction :=
  { symbol := "SOLUSDT", direction := "up", probability := 9/10,
    expectedMove := 2, bestCase := 1, worstCase := -20,
    timeframe := "1h", confidence := "high", riskLevel := "low" }

/-- A valid `up` prediction (worstCase −25%) for the amended C2 statement. -/
def liqPred2 : Prediction :=
  { symbol := "SOLUSDT", direction := "up", probability := 9/10,
    expectedMove := 2, bestCase := 1, worstCase := -25,
    timeframe := "1h", confidence := "high", riskLevel := "low" }

/-- A valid `up` prediction used with equity 1000 and available balance 10:
the Kelly size is cut by the margin cap, raised back to the 100 USDT minimum
(whose margin, 10, fits the available balance), and then rejected by the
final margin check. -/
def marginEdgePred : Prediction :=
  { symbol := "SOLUSDT", direction := "up", probability := 7/10,
    expectedMove := 2, bestCase := 2, worstCase := -1,
    timeframe := "1h", confidence := "high", riskLevel := "low" }

/-- The position size as the claim words it: the full Kelly fraction of total
equity, clamped above by 60% of equity and by 90% of available balance ×
leverage, raised to the 100 USDT minimum notional.  (Second definition, from
the claim's words, for comparison with the source's computation.) -/
def kellySpecSize (f totalEquity availableBalance : ℚ) (leverage : Int) : ℚ :=
  max (min (min (totalEquity * f) (totalEquity * (6/10)))
           (availableBalance * (9/10) * (leverage : ℚ))) 100

/-- A `down` prediction returned by the LLM with both cases positive; the
sign-fix block flips and swaps it. -/
def downSignBugPred : Prediction :=
  { symbol := "SOLUSDT", direction := "down", probability := 7/10,
    expectedMove := -2, bestCase := 4, worstCase := 2,
    timeframe := "1h", confidence := "high", riskLevel := "low" }

/-- The profit-protection ratio ladder of the trailing-stop block in
`GetPositions` (trader/binance_futures.go): 80/70/60/50/40% at price moves
≥10/≥7/≥5/≥3/else. -/
def protectionRatioOf (priceMovePct : ℚ) : ℚ :=
  if priceMovePct ≥ 10 then 8/10
  else if priceMovePct ≥ 7 then 7/10
  else if priceMovePct ≥ 5 then 6/10
  else if priceMovePct ≥ 3 then 5/10
  else 4/10

/-- The per-position trailing-stop logic of `GetPositions`
(trader/binance_futures.go, lines 143-300): given the position fields and
the current venue stop (`none` when `getCurrentStopLoss` found none), returns
`some newStop` when a stop order is to be (re)placed and `none` when the
update is skipped.  Exchange I/O and logging are elided; all numeric logic
is as in the source. -/
def trailingStopUpdate (side : String) (entryPrice markPrice unRealizedProfit : ℚ)
    (leverage : Int) (positionAmt : ℚ) (currentStop : Option ℚ) : Option ℚ :=
  let positionValue := |positionAmt| * entryPrice
  let margin := positionValue / (leverage : ℚ)
  let profitPct := if margin > 0 then unRealizedProfit / margin * 100 else 0
  let priceMovePct :=
    if side = "long" then (markPrice - entryPrice) / entryPrice * 100
    else (entryPrice - markPrice) / entryPrice * 100
  if profitPct < 5 then none
  else
    let absoluteProfit := if unRealizedProfit < 0 then -unRealizedProfit else unRealizedProfit
    if absoluteProfit < 1 then none
    else
      let protectionRatio := protectionRatioOf priceMovePct
      let newStopLoss :=
        if side = "long" then entryPrice + (markPrice - entryPrice) * protectionRatio
        else entryPrice - (entryPrice - markPrice) * protectionRatio
      let breakEvenPrice :=
        if side = "long" then entryPrice * (1001/1000) else entryPrice * (999/1000)
      match currentStop with
      | none =>
        some (if side = "long" ∧ newStopLoss < breakEvenPrice then breakEvenPrice
          else if side = "short" ∧ newStopLoss > breakEvenPrice then breakEvenPrice
          else newStopLoss)
      | some oldStop =>
        if side = "long" then
          (if newStopLoss > oldStop then some newStopLoss else none)
        else
          (if newStopLoss < oldStop then some newStopLoss else none)

/-- The market-data fields read by `EntryTimingEngine` (`market.Data` with
its `LongerTermContext`); indicator values are per the snapshot. -/
structure MarketData where
  currentPrice : ℚ
  ema20 : ℚ
  ema50 : ℚ
  atr14 : ℚ
  rsi14 : ℚ
  adx : ℚ
  plusDI : ℚ
  minusDI : ℚ
  fundingRate : ℚ
  priceChange1h : ℚ
deriving Repr, DecidableEq

/-- `NewEntryTimingEngine`'s `ADXMinimum = 25.0`. -/
def entryADXMinimum : ℚ := 25

/-- `NewEntryTimingEngine`'s `FundingRateLimit = 0.0001` (0.01%). -/
def entryFundingRateLimit : ℚ := 1/10000

/-- Error labels for `EntryTimingEngine.Decide` (the Go method returns
wrapped error strings). -/
inductive TimingErr where
  | trendReject
  | adxReject
  | fundingReject
  | classifyReject
  | unknownTiming
deriving Repr, DecidableEq

/-- `EntryTimingEngine.validateTrend`: rejects `up` when `-DI > +DI × 1.5`
or price is more than 1% below EMA50, mirrored for `down` (±1% tolerance
band). -/
def validateTrendErr (direction : String) (md : MarketData) : Option TimingErr :=
  let distPct := (md.currentPrice - md.ema50) / md.ema50 * 100
  if direction = "up" then
    if md.minusDI > md.plusDI * (15/10) then some .trendReject
    else if distPct < -1 then some .trendReject
    else none
  else if direction = "down" then
    if md.plusDI > md.minusDI * (15/10) then some .trendReject
    else if distPct > 1 then some .trendReject
    else none
  else none

/-- `EntryTimingEngine.validateFundingRate`: rejects a long when funding
exceeds the limit, a short when below its negative. -/
def validateFundingRateErr (direction : String) (md : MarketData) : Option TimingErr :=
  if direction = "up" then
    (if md.fundingRate > entryFundingRateLimit then some .fundingReject else none)
  else if direction = "down" then
    (if md.fundingRate < -entryFundingRateLimit then some .fundingReject else none)
  else none

/-- `EntryTimingEngine.classifyEntryTiming`: hard rejects, wait-pullback, or
immediate entry. -/
def classifyEntryTiming (direction : String) (md : MarketData) : String :=
  let priceToEMA := (md.currentPrice - md.ema20) / md.ema20 * 100
  if direction = "up" then
    if md.rsi14 > 80 then "reject"
    else if md.priceChange1h > 5 then "reject"
    else if priceToEMA > 4 then "reject"
    else if md.rsi14 > 70 ∨ md.priceChange1h > 3 ∨ priceToEMA > 5/2 then "wait"
    else "immediate"
  else if direction = "down" then
    if md.rsi14 < 20 then "reject"
    else if md.priceChange1h < -5 then "reject"
    else if priceToEMA < -4 then "reject"
    else if md.rsi14 < 30 ∨ md.priceChange1h < -3 ∨ priceToEMA < -(5/2) then "wait"
    else "immediate"
  else "reject"

/-- `EntryTimingEngine.selectClosestPrice`: the candidate closest to the
current price (first on ties), current price when the list is empty. -/
def selectClosestPrice (candidates : List ℚ) (currentPrice : ℚ) : ℚ :=
  match candidates with
  | [] => currentPrice
  | c :: rest =>
    (rest.foldl
      (fun acc price =>
        if |price - currentPrice| < acc.2 then (price, |price - currentPrice|) else acc)
      (c, |c - currentPrice|)).1

/-- `EntryTimingEngine.calculateTargetPrice`: the pullback target — EMA20
when 0.3–2.5% away, the 50% retracement of the 1h move when it exceeds 2%,
and an RSI-scaled fixed pullback as the fallback; the closest candidate
wins. -/
def calculateTargetPrice (direction : String) (md : MarketData) : ℚ :=
  let currentPrice := md.currentPrice
  let ema20 := md.ema20
  let rsi14 := md.rsi14
  let priceChange1h := md.priceChange1h
  if direction = "up" then
    let c1 : List ℚ :=
      (let ema20Dist := (currentPrice - ema20) / currentPrice * 100
       if ema20Dist > 3/10 ∧ ema20Dist < 5/2 then [ema20] else [])
    let c2 : List ℚ :=
      (if priceChange1h > 2 then
        (let priceAgo := currentPrice / (1 + priceChange1h / 100)
         [currentPrice - (currentPrice - priceAgo) * (1/2)])
       else [])
    let pullbackPct : ℚ := if rsi14 > 70 then 15/10 else if rsi14 > 65 then 1 else 1/2
    selectClosestPrice (c1 ++ c2 ++ [currentPrice * (1 - pullbackPct / 100)]) currentPrice
  else
    let c1 : List ℚ :=
      (let ema20Dist := (ema20 - currentPrice) / currentPrice * 100
       if ema20Dist > 3/10 ∧ ema20Dist < 5/2 then [ema20] else [])
    let c2 : List ℚ :=
      (if priceChange1h < -2 then
        (let priceAgo := currentPrice / (1 + priceChange1h / 100)
         [currentPrice + (priceAgo - currentPrice) * (1/2)])
       else [])
    let bouncePct : ℚ := if rsi14 < 30 then 15/10 else if rsi14 < 35 then 1 else 1/2
    selectClosestPrice (c1 ++ c2 ++ [currentPrice * (1 + bouncePct / 100)]) currentPrice

/-- `EntryTimingEngine.calculateExpiry`: limit-order expiry hours from the
prediction timeframe, scaled ∓30% by volatility, clamped to [1, 8]. -/
def calculateExpiry (timeframe : String) (md : MarketData) : Int :=
  let baseExpiry : Int :=
    if timeframe = "1h" then 1
    else if timeframe = "4h" then 3
    else if timeframe = "24h" then 6
    else 2
  let atrPct := md.atr14 / md.currentPrice * 100
  let e2 : Int :=
    if atrPct > 2 then truncQ ((baseExpiry : ℚ) * (7/10))
    else if atrPct < 1/2 then truncQ ((baseExpiry : ℚ) * (13/10))
    else baseExpiry
  let e3 := if e2 < 1 then 1 else e2
  if e3 > 8 then 8 else e3

/-- The fields of `EntryDecision` (reasoning strings elided). -/
structure EntryDecisionL where
  strategy : String
  limitPrice : ℚ
  currentPrice : ℚ
  pullbackPct : ℚ
  expiryHours : Int
  keyLevels : List ℚ
deriving Repr, DecidableEq

/-- `EntryTimingEngine.Decide` (decision/agents): trend gate, ADX floor,
funding-rate gate, then immediate / wait-pullback / reject classification. -/
def entryDecide (prediction : Prediction) (md : MarketData) : Except TimingErr EntryDecisionL :=
  match validateTrendErr prediction.direction md with
  | some e => .error e
  | none =>
    if md.adx < entryADXMinimum then .error .adxReject
    else
      match validateFundingRateErr prediction.direction md with
      | some e => .error e
      | none =>
        let timing := classifyEntryTiming prediction.direction md
        if timing = "immediate" then
          .ok ⟨"immediate", 0, md.currentPrice, 0, 0, []⟩
        else if timing = "wait" then
          let targetPrice := calculateTargetPrice prediction.direction md
          .ok ⟨"wait_pullback", targetPrice, md.currentPrice,
            (targetPrice - md.currentPrice) / md.currentPrice * 100,
            calculateExpiry prediction.timeframe md,
            [md.ema20, md.ema50]⟩
        else if timing = "reject" then .error .classifyReject
        else .error .unknownTiming

/-- A chop-market snapshot (ADX 20) for the C8 witness. -/
def chopMarket : MarketData :=
  { currentPrice := 100, ema20 := 100, ema50 := 100, atr14 := 1,
    rsi14 := 50, adx := 20, plusDI := 20, minusDI := 15,
    fundingRate := 0, priceChange1h := 0 }

/-- C9: `evaluateRecord` computes `actualMove = (finalPrice − entryPrice)/entryPrice`
(stored in percent, ×100 as in the Go source), sets `isCorrect` for `up` iff
`actualMove > 0`, for `down` iff `actualMove < 0`, for `neutral` iff
`|actualMove| < 1%`, and sets `accuracy = 1 − min(|expectedMove − actualMove|/|expectedMove|, 1)`
with `accuracy = 0.5` when `expectedMove = 0`; in particular a record whose
`actualMove` equals its non-zero sign-consistent `expectedMove` evaluates to
`accuracy = 1` and `isCorrect = true`. -/
theorem evaluateRecord_spec (entry finalP : ℚ) (dir : String) (em : ℚ) :
    (evaluateRecord entry finalP dir em).actualMove = (finalP - entry) / entry * 100
    ∧ (dir = "up" →
        ((evaluateRecord entry finalP dir em).isCorrect = true ↔
          (finalP - entry) / entry * 100 > 0))
    ∧ (dir = "down" →
        ((evaluateRecord entry finalP dir em).isCorrect = true ↔
          (finalP - entry) / entry * 100 < 0))
    ∧ (dir = "neutral" →
        ((evaluateRecord entry finalP dir em).isCorrect = true ↔
          |(finalP - entry) / entry * 100| < 1))
    ∧ (em ≠ 0 → (evaluateRecord entry finalP dir em).accuracy =
        1 - min (|em - (finalP - entry) / entry * 100| / |em|) 1)
    ∧ (em = 0 → (evaluateRecord entry finalP dir em).accuracy = 1/2)
    ∧ (em ≠ 0 → (finalP - entry) / entry * 100 = em →
        ((dir = "up" ∧ em > 0) ∨ (dir = "down" ∧ em < 0)) →
        (evaluateRecord entry finalP dir em).accuracy = 1
        ∧ (evaluateRecord entry finalP dir em).isCorrect = true) := by
  unfold evaluateRecord
  refine ⟨rfl, ?_, ?_, ?_, ?_, ?_, ?_⟩
  · intro h; subst h
    split_ifs <;> simp_all
  · intro h; subst h
    split_ifs <;> simp_all
  · intro h; subst h
    split_ifs <;> simp_all
  · intro h; simp [h]
  · intro h; simp [h]
  · intro hne heq hsign
    constructor
    · simp [hne, heq]
    · rcases hsign with ⟨hd, hpos⟩ | ⟨hd, hneg⟩ <;> subst hd <;>
        simp only [heq] <;> split_ifs <;> simp_all

/-- C9 witness: evaluating a record with entry 100, final 104, direction `up`,
expected move 4% yields accuracy 1 and a correct direction. -/
theorem evaluateRecord_spec_witness :
    (evaluateRecord 100 104 "up" 4).accuracy = 1
    ∧ (evaluateRecord 100 104 "up" 4).isCorrect = true :=
  (evaluateRecord_spec 100 104 "up" 4).2.2.2.2.2.2 (by norm_num) (by norm_num)
    (Or.inl ⟨rfl, by norm_num⟩)

/-- C3 counterexample: the claim (and spec) say a `down` prediction is
accepted only if `worstCase ≥ 0`; in the code the check is the opposite —
`validatePrediction` rejects `down` whenever `worstCase ≥ 0` and accepts
`downAcceptedPred`, whose `worstCase = -3 < 0`. -/
theorem validatePrediction_cex :
    exceptIsOk (validatePrediction downAcceptedPred) = true
    ∧ downAcceptedPred.worstCase < 0 := by
  constructor
  · norm_num [validatePrediction, rangeError, signConsistencyError, confConsistencyError,
      downAcceptedPred, exceptIsOk, normConf, normRisk]
    simp
  · norm_num [downAcceptedPred]

/-- An accepted prediction passes the direction-sign stage. -/
theorem validatePrediction_ok_sign (p q : Prediction)
    (hq : validatePrediction p = .ok q) : signConsistencyError p = none := by
  unfold validatePrediction at hq
  cases hr : rangeError p with
  | some e => rw [hr] at hq; exact Except.noConfusion hq
  | none =>
    rw [hr] at hq
    cases hs : signConsistencyError p with
    | some e => rw [hs] at hq; exact Except.noConfusion hq
    | none => rfl

/-- The direction-sign stage passes exactly when none of its six guarded
conditions holds. -/
theorem signConsistencyError_none_iff (p : Prediction) :
    signConsistencyError p = none ↔
      ¬ (p.direction = "up" ∧ p.bestCase ≤ 0)
      ∧ ¬ (p.direction = "up" ∧ p.worstCase > 0)
      ∧ ¬ (p.direction = "up" ∧ p.expectedMove ≤ 0)
      ∧ ¬ (p.direction = "down" ∧ p.worstCase ≥ 0)
      ∧ ¬ (p.direction = "down" ∧ p.expectedMove ≥ 0)
      ∧ ¬ (p.direction = "neutral" ∧ p.probability > 60/100) := by
  unfold signConsistencyError
  split_ifs with h1 h2 h3 h4 h5 h6 <;> simp_all

set_option maxHeartbeats 800000 in
/-- C3 amended: `validatePrediction` enforces direction-sign consistency with
the `down` condition inverted relative to the claim: `up` is accepted only if
`bestCase > 0`, `worstCase ≤ 0` and `expectedMove > 0`; `down` is accepted
only if `worstCase < 0` and `expectedMove < 0` (it is rejected whenever
`worstCase ≥ 0`); `neutral` is accepted only if `probability ≤ 0.60`; and any
prediction violating its direction's condition is rejected with an error. -/
theorem validatePrediction_amended (p : Prediction) :
    (∀ q, validatePrediction p = .ok q →
      (p.direction = "up" → p.bestCase > 0 ∧ p.worstCase ≤ 0 ∧ p.expectedMove > 0)
      ∧ (p.direction = "down" → p.worstCase < 0 ∧ p.expectedMove < 0)
      ∧ (p.direction = "neutral" → p.probability ≤ 60/100))
    ∧ (p.direction = "up" → ¬ (p.bestCase > 0 ∧ p.worstCase ≤ 0 ∧ p.expectedMove > 0) →
        ∀ q, validatePrediction p ≠ .ok q)
    ∧ (p.direction = "down" → ¬ (p.worstCase < 0 ∧ p.expectedMove < 0) →
        ∀ q, validatePrediction p ≠ .ok q)
    ∧ (p.direction = "neutral" → p.probability > 60/100 →
        ∀ q, validatePrediction p ≠ .ok q) := by
  have key : ∀ q, validatePrediction p = .ok q →
      ¬ (p.direction = "up" ∧ p.bestCase ≤ 0)
      ∧ ¬ (p.direction = "up" ∧ p.worstCase > 0)
      ∧ ¬ (p.direction = "up" ∧ p.expectedMove ≤ 0)
      ∧ ¬ (p.direction = "down" ∧ p.worstCase ≥ 0)
      ∧ ¬ (p.direction = "down" ∧ p.expectedMove ≥ 0)
      ∧ ¬ (p.direction = "neutral" ∧ p.probability > 60/100) :=
    fun q hq => (signConsistencyError_none_iff p).mp (validatePrediction_ok_sign p q hq)
  refine ⟨?_, ?_, ?_, ?_⟩
  · intro q hq
    obtain ⟨k1, k2, k3, k4, k5, k6⟩ := key q hq
    push_neg at k1 k2 k3 k4 k5 k6
    exact ⟨fun hd => ⟨k1 hd, k2 hd, k3 hd⟩, fun hd => ⟨k4 hd, k5 hd⟩, fun hd => k6 hd⟩
  · intro hd hviol q hq
    obtain ⟨k1, k2, k3, -, -, -⟩ := key q hq
    push_neg at hviol k1 k2 k3
    exact absurd (hviol (k1 hd) (k2 hd)) (not_le.mpr (k3 hd))
  · intro hd hviol q hq
    obtain ⟨-, -, -, k4, k5, -⟩ := key q hq
    push_neg at hviol k4 k5
    exact absurd (hviol (k4 hd)) (not_le.mpr (k5 hd))
  · intro hd hp q hq
    obtain ⟨-, -, -, -, -, k6⟩ := key q hq
    push_neg at k6
    exact absurd (k6 hd) (not_le.mpr hp)

/-- C3 amended witness: the accepted `up` prediction `upAcceptedPred`
satisfies the `up` sign conditions. -/
theorem validatePrediction_amended_witness :
    upAcceptedPred.bestCase > 0 ∧ upAcceptedPred.worstCase ≤ 0
    ∧ upAcceptedPred.expectedMove > 0 := by
  have h := (validatePrediction_amended upAcceptedPred).1 upAcceptedPred
    (by norm_num [validatePrediction, rangeError, signConsistencyError, confConsistencyError,
      upAcceptedPred, normConf, normRisk]
        ; simp)
  exact h.1 rfl

/-- C4 counterexample: the claim says that with R/R below 2.0 the calculation
rescales only in a trending regime and aborts otherwise; the market regime is
not even an input of `calculatePositionFromPrediction`, and on `lowRRPred`
(R/R = 1) it rescales `bestCase` to 2 and returns parameters — it never
aborts on this account, whatever the regime. -/
theorem calcPos_rr_cex :
    |lowRRPred.bestCase| / |lowRRPred.worstCase| < 2
    ∧ calculatePositionFromPrediction 10 5 lowRRPred 100 (1/10) 1000 1000
        = .ok ⟨550, 5, 99, 102, { lowRRPred with bestCase := 2 }⟩ := by
  constructor
  · norm_num [lowRRPred]
  · simp [calculatePositionFromPrediction, adjustPrediction, fixSigns, minCaseValueOf,
      raiseCase, enforceRR, payoffRatioOf, kellyOf, leverageFromRisk, baseLeverageFor, applyMarginCap,
      liqAdjustLeverage, truncQ, MinStopMultiple, LiquidationMarginRate, lowRRPred]
    norm_num

/-- C4 amended: whenever the implied R/R `|bestCase|/|worstCase|` is below
2.0, `calculatePositionFromPrediction` overwrites `bestCase` to exactly meet
2.0 (negative for `down`, positive otherwise) unconditionally — the market
regime plays no role and the calculation never aborts on this account. -/
theorem enforceRR_amended :
    (∀ (direction : String) (best worst : ℚ),
      enforceRR direction best worst =
        if |best| / |worst| < 2 then
          (if direction = "down" then -(|worst| * 2) else |worst| * 2)
        else best)
    ∧ (∀ (p : Prediction) (atrPct : ℚ),
        (adjustPrediction p atrPct).bestCase =
          enforceRR p.direction
            (raiseCase (minCaseValueOf atrPct) (fixSigns p.direction p.bestCase p.worstCase).1)
            (raiseCase (minCaseValueOf atrPct) (fixSigns p.direction p.bestCase p.worstCase).2)) := by
  constructor
  · intro direction best worst
    by_cases hd : direction = "down" <;> by_cases hr : |best| / |worst| < 2 <;>
      simp [enforceRR, hd, hr]
  · intro p atrPct
    rfl

/-- C2 counterexample: on `stillUnsafePred` the stop 80 crosses the
liquidation price at leverage 10 (90.5), leverage is cut once to 7, and the
stop still crosses the recomputed liquidation price 605/7 ≈ 86.4 — yet
`calculatePositionFromPrediction` returns the risk parameters instead of
aborting as the claim states. -/
theorem calcPos_liq_cex :
    calculatePositionFromPrediction 10 10 stillUnsafePred 100 0 1000 10000
      = .ok ⟨600, 7, 80, 140, { stillUnsafePred with bestCase := 40 }⟩
    ∧ (80 : ℚ) ≤ liquidationPriceOf true 100 10
    ∧ liqAdjustLeverage true 100 80 10 = 7
    ∧ (80 : ℚ) ≤ liquidationPriceOf true 100 7 := by
  refine ⟨?_, ?_, ?_, ?_⟩
  · simp [calculatePositionFromPrediction, adjustPrediction, fixSigns, minCaseValueOf,
      raiseCase, enforceRR, payoffRatioOf, kellyOf, leverageFromRisk, baseLeverageFor, applyMarginCap,
      liqAdjustLeverage, truncQ, MinStopMultiple, LiquidationMarginRate, stillUnsafePred]
    norm_num
  · norm_num [liquidationPriceOf, LiquidationMarginRate]
  · norm_num [liqAdjustLeverage, truncQ, LiquidationMarginRate]
  · norm_num [liquidationPriceOf, LiquidationMarginRate]

/-- C2 amended: when the computed stop crosses the liquidation price
`entry × (1 ∓ 0.95/leverage)`, `calculatePositionFromPrediction` reduces
leverage by 30% (Go integer truncation, floored at 1) and recomputes the
liquidation price once; it performs no further liquidation check — if the
stop still crosses the recomputed price the function nevertheless returns
risk parameters, aborting afterwards only when the final margin check
(margin > 90% of available balance) fails. -/
theorem calcPos_liq_amended :
    (∀ (cp stop : ℚ) (lev : Int),
      (stop ≤ cp * (1 - LiquidationMarginRate / (lev : ℚ)) →
        liqAdjustLeverage true cp stop lev = max 1 (truncQ ((lev : ℚ) * (7/10))))
      ∧ (¬ stop ≤ cp * (1 - LiquidationMarginRate / (lev : ℚ)) →
        liqAdjustLeverage true cp stop lev = lev)
      ∧ (cp * (1 + LiquidationMarginRate / (lev : ℚ)) ≤ stop →
        liqAdjustLeverage false cp stop lev = max 1 (truncQ ((lev : ℚ) * (7/10))))
      ∧ (¬ cp * (1 + LiquidationMarginRate / (lev : ℚ)) ≤ stop →
        liqAdjustLeverage false cp stop lev = lev))
    ∧ calculatePositionFromPrediction 10 10 liqPred2 100 0 1000 10000
        = .ok ⟨600, 7, 75, 150, { liqPred2 with bestCase := 50 }⟩
    ∧ (75 : ℚ) ≤ liquidationPriceOf true 100 7 := by
  refine ⟨?_, ?_, ?_⟩
  · intro cp stop lev
    have hmax : ∀ l : Int, (if l < 1 then 1 else l) = max 1 l := by
      intro l; by_cases h : l < 1 <;> simp [h] <;> omega
    refine ⟨?_, ?_, ?_, ?_⟩ <;> intro h <;>
      simp [liqAdjustLeverage, h, hmax, max_comm]
  · simp [calculatePositionFromPrediction, adjustPrediction, fixSigns, minCaseValueOf,
      raiseCase, enforceRR, payoffRatioOf, kellyOf, leverageFromRisk, baseLeverageFor, applyMarginCap,
      liqAdjustLeverage, truncQ, MinStopMultiple, LiquidationMarginRate, liqPred2]
    norm_num
  · norm_num [liquidationPriceOf, LiquidationMarginRate]

/-- C2 amended witness: a stop of 80 at price 100 and leverage 10 crosses the
liquidation price 90.5, and the leverage is reduced to
`max 1 (trunc(10·0.7)) = 7`. -/
theorem calcPos_liq_amended_witness :
    liqAdjustLeverage true 100 80 10 = max 1 (truncQ ((10 : ℚ) * (7/10))) :=
  ((calcPos_liq_amended.1 100 80 10).1 (by norm_num [LiquidationMarginRate]))

/-- C5 counterexample: the claim says the sizing errors only when even the
100 USDT minimum cannot be margined; here the 100 USDT minimum at leverage
10 needs margin 10 ≤ available 10 — it can be margined — yet
`calculatePositionFromPrediction` errors at the final margin check because
10 exceeds 90% of the available balance. -/
theorem calcPos_margin_cex :
    calculatePositionFromPrediction 10 10 marginEdgePred 100 0 1000 10
      = .error .finalMarginInsufficient
    ∧ (100 : ℚ) / 10 ≤ 10 := by
  constructor
  · simp [calculatePositionFromPrediction, adjustPrediction, fixSigns, minCaseValueOf,
      raiseCase, enforceRR, payoffRatioOf, kellyOf, leverageFromRisk, baseLeverageFor,
      applyMarginCap, liqAdjustLeverage, truncQ, MinStopMultiple, LiquidationMarginRate,
      marginEdgePred]
    norm_num
  · norm_num

/-- A successful pass through `applyMarginCap`, applied to a size already
raised to the 100 minimum, yields exactly the claim's clamp-then-raise
formula. -/
theorem applyMarginCap_ok_eq (A : ℚ) (lev : Int) (av : ℚ) (hlev : 1 ≤ lev) (P : ℚ)
    (h : applyMarginCap (max A 100) lev av = .ok P) :
    P = max (min A (av * (9/10) * (lev : ℚ))) 100 := by
  have hlev0 : (0 : ℚ) < (lev : ℚ) := by exact_mod_cast hlev
  unfold applyMarginCap at h
  by_cases h1 : (max A 100) / (lev : ℚ) > av * (9/10)
  · rw [if_pos h1] at h
    by_cases h2 : av * (9/10) * (lev : ℚ) < 100
    · rw [if_pos h2] at h
      by_cases h3 : (100 : ℚ) / (lev : ℚ) > av
      · rw [if_pos h3] at h
        exact Except.noConfusion h
      · rw [if_neg h3] at h
        injection h with h
        subst h
        exact (max_eq_right (le_of_lt (lt_of_le_of_lt (min_le_right _ _) h2))).symm
    · rw [if_neg h2] at h
      injection h with h
      subst h
      have hcap : (100 : ℚ) ≤ av * (9/10) * (lev : ℚ) := not_lt.mp h2
      have hBgt : av * (9/10) * (lev : ℚ) < max A 100 := (lt_div_iff₀ hlev0).mp h1
      have hA : (100 : ℚ) < A := by
        by_contra hle
        push_neg at hle
        rw [max_eq_right hle] at hBgt
        linarith
      have hAcap : av * (9/10) * (lev : ℚ) < A := by
        rwa [max_eq_left (by linarith : (100 : ℚ) ≤ A)] at hBgt
      rw [min_eq_right (le_of_lt hAcap)]
      exact (max_eq_left hcap).symm
  · rw [if_neg h1] at h
    injection h with h
    subst h
    have hBle : max A 100 ≤ av * (9/10) * (lev : ℚ) :=
      (div_le_iff₀ hlev0).mp (not_lt.mp h1)
    have hA : A ≤ av * (9/10) * (lev : ℚ) := le_trans (le_max_left _ _) hBle
    rw [min_eq_left hA]

/-- The leverage selection never returns less than 1. -/
theorem leverageFromRisk_ge_one (base : Int) (rl : String) :
    1 ≤ leverageFromRisk base rl := by
  simp only [leverageFromRisk]
  split_ifs <;> omega

/-- The 60%-of-equity clamp of the source, as a `min`. -/
theorem ite_gt_eq_min (a c : ℚ) : (if a > c then c else a) = min a c := by
  by_cases h : a > c
  · rw [if_pos h, min_eq_right (le_of_lt h)]
  · rw [if_neg h, min_eq_left (not_lt.mp h)]

/-- The raise-to-100 of the source, as a `max`. -/
theorem ite_lt_eq_max (a : ℚ) : (if a < 100 then 100 else a) = max a 100 := by
  by_cases h : a < 100
  · rw [if_pos h, max_eq_right (le_of_lt h)]
  · rw [if_neg h, max_eq_left (not_lt.mp h)]

set_option maxHeartbeats 1000000 in
/-- C5 amended: `calculatePositionFromPrediction` computes the Kelly fraction
`f = (p·b − (1−p))/b`, errors with the negative-Kelly error whenever `f ≤ 0`,
and on success sizes the position at exactly the full Kelly fraction of total
equity clamped above by 60% of equity and by 90% of available balance ×
leverage and raised to the 100 USDT minimum; but the margin-cap stage errors
only when the 100 USDT minimum needs more margin than the **full** available
balance, and a **final** margin check additionally rejects whenever the final
margin exceeds 90% of the available balance — so the function can error even
when the 100 USDT minimum can be margined. -/
theorem calcPos_sizing_amended (btcEth altcoin : Int) (p0 : Prediction)
    (cp atr eq avail b : ℚ)
    (hp : payoffRatioOf (adjustPrediction p0 (atr / cp * 100)).direction
            (adjustPrediction p0 (atr / cp * 100)).bestCase
            (adjustPrediction p0 (atr / cp * 100)).worstCase = .ok b)
    (hb : 0 < b) :
    (∀ (ps av : ℚ) (lev : Int),
        applyMarginCap ps lev av = .error .insufficientFunds ↔
          (ps / (lev : ℚ) > av * (9/10) ∧ av * (9/10) * (lev : ℚ) < 100
            ∧ 100 / (lev : ℚ) > av))
    ∧ (kellyOf (adjustPrediction p0 (atr / cp * 100)).probability b ≤ 0 →
        calculatePositionFromPrediction btcEth altcoin p0 cp atr eq avail
          = .error .negativeKelly)
    ∧ (∀ r, calculatePositionFromPrediction btcEth altcoin p0 cp atr eq avail = .ok r →
        r.positionSize =
          kellySpecSize (kellyOf (adjustPrediction p0 (atr / cp * 100)).probability b)
            eq avail
            (leverageFromRisk
              (baseLeverageFor btcEth altcoin (adjustPrediction p0 (atr / cp * 100)).symbol)
              (adjustPrediction p0 (atr / cp * 100)).riskLevel)
        ∧ r.positionSize / (r.leverage : ℚ) ≤ avail * (9/10)) := by
  have hb' : ¬ (b ≤ 0) := not_le.mpr hb
  refine ⟨?_, ?_, ?_⟩
  · intro ps av lev
    unfold applyMarginCap
    split_ifs with h1 h2 h3 <;> simp_all
  · intro hk
    simp only [calculatePositionFromPrediction]
    rw [hp]
    simp [hb', hk]
  · intro r hr
    simp only [calculatePositionFromPrediction] at hr
    simp only [hp] at hr
    rw [if_neg hb'] at hr
    by_cases hk : kellyOf (adjustPrediction p0 (atr / cp * 100)).probability b ≤ 0
    · rw [if_pos hk] at hr
      exact absurd hr (by simp)
    · rw [if_neg hk] at hr
      rw [ite_gt_eq_min, ite_lt_eq_max] at hr
      cases hm : applyMarginCap
          (max (min (eq * (kellyOf (adjustPrediction p0 (atr / cp * 100)).probability b * 1))
                (eq * (6/10))) 100)
          (leverageFromRisk
            (baseLeverageFor btcEth altcoin (adjustPrediction p0 (atr / cp * 100)).symbol)
            (adjustPrediction p0 (atr / cp * 100)).riskLevel) avail with
      | error e =>
        simp only [hm] at hr
        exact absurd hr (by simp)
      | ok P =>
        simp only [hm] at hr
        split at hr
        next hfin => exact absurd hr (by simp)
        next hfin =>
          injection hr with hr
          subst hr
          have hP := applyMarginCap_ok_eq
            (min (eq * (kellyOf (adjustPrediction p0 (atr / cp * 100)).probability b * 1))
              (eq * (6/10)))
            (leverageFromRisk
              (baseLeverageFor btcEth altcoin (adjustPrediction p0 (atr / cp * 100)).symbol)
              (adjustPrediction p0 (atr / cp * 100)).riskLevel)
            avail (leverageFromRisk_ge_one _ _) P hm
          constructor
          · show P = _
            rw [hP]
            unfold kellySpecSize
            rw [mul_one]
          · exact not_lt.mp hfin

/-- C5 amended witness: for `marginEdgePred` with equity 1000, available
balance 1000 and payoff ratio 2, the returned size 550 equals the Kelly
formula clamped as amended, and its margin respects the 90% bound. -/
theorem calcPos_sizing_amended_witness :
    (550 : ℚ) =
      kellySpecSize (kellyOf (adjustPrediction marginEdgePred (0 / 100 * 100)).probability 2)
        1000 1000
        (leverageFromRisk
          (baseLeverageFor 10 10 (adjustPrediction marginEdgePred (0 / 100 * 100)).symbol)
          (adjustPrediction marginEdgePred (0 / 100 * 100)).riskLevel)
    ∧ (550 : ℚ) / ((10 : Int) : ℚ) ≤ 1000 * (9/10) := by
  have h := (calcPos_sizing_amended 10 10 marginEdgePred 100 0 1000 1000 2
      (by simp [payoffRatioOf, adjustPrediction, fixSigns, minCaseValueOf, raiseCase,
        enforceRR, MinStopMultiple, marginEdgePred]; norm_num)
      (by norm_num)).2.2
      ⟨550, 10, 99, 102, adjustPrediction marginEdgePred (0 / 100 * 100)⟩
      (by simp [calculatePositionFromPrediction, adjustPrediction, fixSigns, minCaseValueOf,
        raiseCase, enforceRR, payoffRatioOf, kellyOf, leverageFromRisk, baseLeverageFor,
        applyMarginCap, liqAdjustLeverage, truncQ, MinStopMultiple, LiquidationMarginRate,
        marginEdgePred]; norm_num)
  exact h

/-- The magnitude floor keeps every case at least `minCase` in magnitude. -/
theorem raiseCase_abs_ge (mc v : ℚ) (h : 0 ≤ mc) : mc ≤ |raiseCase mc v| := by
  unfold raiseCase
  split_ifs with h1 h2
  · rw [abs_of_nonneg h]
  · rw [abs_neg, abs_of_nonneg h]
  · exact not_lt.mp h1

/-- After the R/R floor, the best case is at least twice the worst case in
magnitude. -/
theorem enforceRR_abs_ge (direction : String) (b w : ℚ) (hw : 0 < |w|) :
    2 * |w| ≤ |enforceRR direction b w| := by
  have habs : |(|w| * 2)| = |w| * 2 :=
    abs_of_nonneg (mul_nonneg (abs_nonneg w) (by norm_num))
  unfold enforceRR
  split_ifs with hd hr hr
  · rw [abs_neg, habs]
    linarith
  · have := (le_div_iff₀ hw).mp (not_lt.mp hr)
    linarith
  · rw [habs]
    linarith
  · have := (le_div_iff₀ hw).mp (not_lt.mp hr)
    linarith

/-- C10: `calculatePositionFromPrediction` mutates its prediction argument:
the returned prediction is `adjustPrediction` of the input (sign fix,
magnitude floor, R/R floor); after adjustment both case magnitudes are at
least `max(0.5, 4.5·ATR%)` and the implied R/R is at least 2; and on a
concrete sign-bugged `down` input the adjusted prediction differs from the
one passed in. -/
theorem adjustPrediction_spec :
    (∀ (p : Prediction) (atrPct : ℚ),
      minCaseValueOf atrPct ≥ 1/2
      ∧ |(adjustPrediction p atrPct).worstCase| ≥ minCaseValueOf atrPct
      ∧ |(adjustPrediction p atrPct).bestCase| ≥ minCaseValueOf atrPct
      ∧ |(adjustPrediction p atrPct).bestCase| ≥ 2 * |(adjustPrediction p atrPct).worstCase|)
    ∧ (∀ (btcEth altcoin : Int) (p0 : Prediction) (cp atr eq avail : ℚ) (r : CalcResult),
        calculatePositionFromPrediction btcEth altcoin p0 cp atr eq avail = .ok r →
        r.adjusted = adjustPrediction p0 (atr / cp * 100))
    ∧ adjustPrediction downSignBugPred 0 ≠ downSignBugPred := by
  refine ⟨?_, ?_, ?_⟩
  · intro p atrPct
    have hmc : (1/2 : ℚ) ≤ minCaseValueOf atrPct := le_max_left _ _
    have hmc0 : (0 : ℚ) ≤ minCaseValueOf atrPct := by linarith
    have hw : minCaseValueOf atrPct ≤ |(adjustPrediction p atrPct).worstCase| := by
      unfold adjustPrediction
      exact raiseCase_abs_ge _ _ hmc0
    have hwpos : (0 : ℚ) < |(adjustPrediction p atrPct).worstCase| := by linarith
    have hbw : 2 * |(adjustPrediction p atrPct).worstCase|
        ≤ |(adjustPrediction p atrPct).bestCase| := by
      unfold adjustPrediction at hwpos ⊢
      exact enforceRR_abs_ge _ _ _ hwpos
    exact ⟨hmc, hw, by linarith, hbw⟩
  · intro btcEth altcoin p0 cp atr eq avail r hr
    simp only [calculatePositionFromPrediction] at hr
    cases hpr : payoffRatioOf (adjustPrediction p0 (atr / cp * 100)).direction
        (adjustPrediction p0 (atr / cp * 100)).bestCase
        (adjustPrediction p0 (atr / cp * 100)).worstCase with
    | error e =>
      simp only [hpr] at hr
      exact absurd hr (by simp)
    | ok b =>
      simp only [hpr] at hr
      split at hr
      · exact absurd hr (by simp)
      · split at hr
        · exact absurd hr (by simp)
        · split at hr
          · exact absurd hr (by simp)
          · split at hr
            · exact absurd hr (by simp)
            · injection hr with hr
              subst hr
              rfl
  · simp only [adjustPrediction, fixSigns, raiseCase, enforceRR, minCaseValueOf,
      MinStopMultiple, downSignBugPred]
    norm_num

/-- C7: for every position whose margin-profit percentage is ≥ 5% and
absolute profit ≥ 1 USDT, the trailing stop is `entry + (mark − entry) ×
protectionRatio` (mirrored for shorts) with the 40/50/60/70/80% ladder at
price moves 0/3/5/7/10%; on first activation the stop is clamped to at least
break-even ± fee; with an existing stop it is replaced only when strictly
more favorable — a trailing stop never moves in the unfavorable direction. -/
theorem trailingStopUpdate_spec :
    (∀ pm : ℚ, (10 ≤ pm → protectionRatioOf pm = 8/10)
      ∧ (7 ≤ pm → pm < 10 → protectionRatioOf pm = 7/10)
      ∧ (5 ≤ pm → pm < 7 → protectionRatioOf pm = 6/10)
      ∧ (3 ≤ pm → pm < 5 → protectionRatioOf pm = 5/10)
      ∧ (pm < 3 → protectionRatioOf pm = 4/10))
    ∧ (∀ (entry mark profit : ℚ) (lev : Int) (amt : ℚ),
        0 < |amt| * entry / (lev : ℚ) →
        5 ≤ profit / (|amt| * entry / (lev : ℚ)) * 100 →
        1 ≤ |profit| →
        trailingStopUpdate "long" entry mark profit lev amt none =
          some (max (entry + (mark - entry)
              * protectionRatioOf ((mark - entry) / entry * 100))
            (entry * (1001/1000)))
        ∧ trailingStopUpdate "short" entry mark profit lev amt none =
          some (min (entry - (entry - mark)
              * protectionRatioOf ((entry - mark) / entry * 100))
            (entry * (999/1000)))
        ∧ (∀ old : ℚ,
            trailingStopUpdate "long" entry mark profit lev amt (some old) =
              (if entry + (mark - entry) * protectionRatioOf ((mark - entry) / entry * 100)
                  > old
               then some (entry + (mark - entry)
                  * protectionRatioOf ((mark - entry) / entry * 100))
               else none))
        ∧ (∀ old : ℚ,
            trailingStopUpdate "short" entry mark profit lev amt (some old) =
              (if entry - (entry - mark) * protectionRatioOf ((entry - mark) / entry * 100)
                  < old
               then some (entry - (entry - mark)
                  * protectionRatioOf ((entry - mark) / entry * 100))
               else none)))
    ∧ (∀ (side : String) (entry mark profit : ℚ) (lev : Int) (amt old s : ℚ),
        trailingStopUpdate side entry mark profit lev amt (some old) = some s →
        (side = "long" → old < s) ∧ (side = "short" → s < old)) := by
  refine ⟨?_, ?_, ?_⟩
  · intro pm
    unfold protectionRatioOf
    refine ⟨?_, ?_, ?_, ?_, ?_⟩ <;> intros <;> split_ifs <;> first | rfl | linarith
  · intro entry mark profit lev amt hm hp ha
    have hpct : ¬ ((if ((0:ℚ) < |amt| * entry / (lev : ℚ)) then
        profit / (|amt| * entry / (lev : ℚ)) * 100 else 0) < 5) := by
      rw [if_pos hm]; linarith
    have habs : ¬ ((if profit < 0 then -profit else profit) < 1) := by
      by_cases hneg : profit < 0
      · rw [if_pos hneg]; rw [abs_of_neg hneg] at ha; linarith
      · rw [if_neg hneg]; rw [abs_of_nonneg (not_lt.mp hneg)] at ha; linarith
    refine ⟨?_, ?_, ?_, ?_⟩
    · simp +decide [trailingStopUpdate, hpct, habs]
      by_cases hc : entry + (mark - entry) * protectionRatioOf ((mark - entry) / entry * 100)
          < entry * (1001/1000)
      · rw [if_pos hc]
        exact (max_eq_right (le_of_lt hc)).symm
      · rw [if_neg hc]
        exact (max_eq_left (not_lt.mp hc)).symm
    · simp +decide [trailingStopUpdate, hpct, habs]
      by_cases hc : entry * (999/1000)
          < entry - (entry - mark) * protectionRatioOf ((entry - mark) / entry * 100)
      · rw [if_pos hc]
        exact (min_eq_right (le_of_lt hc)).symm
      · rw [if_neg hc]
        exact (min_eq_left (not_lt.mp hc)).symm
    · intro old
      simp +decide [trailingStopUpdate, hpct, habs]
    · intro old
      simp +decide [trailingStopUpdate, hpct, habs]
  · intro side entry mark profit lev amt old s h
    simp only [trailingStopUpdate] at h
    split_ifs at h with h1 h2 h3 h4 h5 <;>
      first
        | exact Option.noConfusion h
        | (injection h with h
           subst h
           constructor <;> intro hs <;> simp_all)

/-- C7 witness (spec scenario: long from 100000, mark 107000 — a 7% move —
leverage 6, prior stop 99000): the trailing stop is promoted to
100000 + 7000·0.70 = 104900. -/
theorem trailingStopUpdate_spec_witness :
    trailingStopUpdate "long" 100000 107000 7000 6 1 (some 99000) = some 104900 := by
  have h := (trailingStopUpdate_spec.2.1 100000 107000 7000 6 1
      (by norm_num) (by norm_num) (by norm_num)).2.2.1 99000
  rw [h]
  norm_num [protectionRatioOf]

/-- `entryDecide` errors whenever a stage reports a problem. -/
theorem entryDecide_err_of (p : Prediction) (md : MarketData)
    (h : validateTrendErr p.direction md ≠ none ∨ md.adx < entryADXMinimum
      ∨ validateFundingRateErr p.direction md ≠ none
      ∨ classifyEntryTiming p.direction md = "reject") :
    exceptIsOk (entryDecide p md) = false := by
  unfold entryDecide
  cases hv : validateTrendErr p.direction md with
  | some e => simp [exceptIsOk]
  | none =>
    by_cases hadx : md.adx < entryADXMinimum
    · simp [hadx, exceptIsOk]
    · rw [if_neg hadx]
      cases hf : validateFundingRateErr p.direction md with
      | some e => simp [exceptIsOk]
      | none =>
        have hreject : classifyEntryTiming p.direction md = "reject" := by
          rcases h with h | h | h | h
          · exact absurd hv h
          · exact absurd h hadx
          · exact absurd hf h
          · exact h
        simp [hreject, exceptIsOk]

/-- An `up` trend rejection condition makes `validateTrend` fail. -/
theorem validateTrendErr_up (md : MarketData)
    (h : md.minusDI > md.plusDI * (15/10)
      ∨ (md.currentPrice - md.ema50) / md.ema50 * 100 < -1) :
    validateTrendErr "up" md ≠ none := by
  simp only [validateTrendErr]
  split_ifs <;> simp_all

/-- A `down` trend rejection condition makes `validateTrend` fail. -/
theorem validateTrendErr_down (md : MarketData)
    (h : md.plusDI > md.minusDI * (15/10)
      ∨ (md.currentPrice - md.ema50) / md.ema50 * 100 > 1) :
    validateTrendErr "down" md ≠ none := by
  simp only [validateTrendErr]
  split_ifs <;> simp_all

/-- Crowded funding makes the long-side funding gate fail. -/
theorem validateFundingRateErr_up (md : MarketData)
    (h : md.fundingRate > entryFundingRateLimit) :
    validateFundingRateErr "up" md ≠ none := by
  simp only [validateFundingRateErr]
  split_ifs <;> simp_all

/-- Crowded funding makes the short-side funding gate fail. -/
theorem validateFundingRateErr_down (md : MarketData)
    (h : md.fundingRate < -entryFundingRateLimit) :
    validateFundingRateErr "down" md ≠ none := by
  simp only [validateFundingRateErr]
  split_ifs <;> simp_all

/-- A hard-reject condition makes the `up` classification `reject`. -/
theorem classify_up_reject (md : MarketData)
    (h : md.rsi14 > 80 ∨ md.priceChange1h > 5
      ∨ (md.currentPrice - md.ema20) / md.ema20 * 100 > 4) :
    classifyEntryTiming "up" md = "reject" := by
  simp only [classifyEntryTiming]
  split_ifs <;> simp_all

/-- A hard-reject condition makes the `down` classification `reject`. -/
theorem classify_down_reject (md : MarketData)
    (h : md.rsi14 < 20 ∨ md.priceChange1h < -5
      ∨ (md.currentPrice - md.ema20) / md.ema20 * 100 < -4) :
    classifyEntryTiming "down" md = "reject" := by
  simp only [classifyEntryTiming]
  split_ifs <;> simp_all

/-- C8: `EntryTimingEngine.Decide` rejects (returns an error, producing no
entry) whenever, for an `up` entry, `-DI > +DI × 1.5` or price is more than
1% below EMA50; whenever ADX < 25; whenever funding exceeds 0.01% for a long
(is below −0.01% for a short); and for a long whenever RSI14 > 80, the 1h
change exceeds 5%, or price is more than 4% above EMA20 — mirrored for
`down`. -/
theorem entryDecide_spec (p : Prediction) (md : MarketData) :
    (md.adx < entryADXMinimum → exceptIsOk (entryDecide p md) = false)
    ∧ (p.direction = "up" →
        (md.minusDI > md.plusDI * (15/10) → exceptIsOk (entryDecide p md) = false)
        ∧ ((md.currentPrice - md.ema50) / md.ema50 * 100 < -1 →
            exceptIsOk (entryDecide p md) = false)
        ∧ (md.fundingRate > entryFundingRateLimit → exceptIsOk (entryDecide p md) = false)
        ∧ (md.rsi14 > 80 → exceptIsOk (entryDecide p md) = false)
        ∧ (md.priceChange1h > 5 → exceptIsOk (entryDecide p md) = false)
        ∧ ((md.currentPrice - md.ema20) / md.ema20 * 100 > 4 →
            exceptIsOk (entryDecide p md) = false))
    ∧ (p.direction = "down" →
        (md.plusDI > md.minusDI * (15/10) → exceptIsOk (entryDecide p md) = false)
        ∧ ((md.currentPrice - md.ema50) / md.ema50 * 100 > 1 →
            exceptIsOk (entryDecide p md) = false)
        ∧ (md.fundingRate < -entryFundingRateLimit → exceptIsOk (entryDecide p md) = false)
        ∧ (md.rsi14 < 20 → exceptIsOk (entryDecide p md) = false)
        ∧ (md.priceChange1h < -5 → exceptIsOk (entryDecide p md) = false)
        ∧ ((md.currentPrice - md.ema20) / md.ema20 * 100 < -4 →
            exceptIsOk (entryDecide p md) = false)) := by
  refine ⟨fun h => entryDecide_err_of p md (Or.inr (Or.inl h)), ?_, ?_⟩
  · intro hd
    refine ⟨?_, ?_, ?_, ?_, ?_, ?_⟩ <;> intro h <;> apply entryDecide_err_of p md <;> rw [hd]
    · exact Or.inl (validateTrendErr_up md (Or.inl h))
    · exact Or.inl (validateTrendErr_up md (Or.inr h))
    · exact Or.inr (Or.inr (Or.inl (validateFundingRateErr_up md h)))
    · exact Or.inr (Or.inr (Or.inr (classify_up_reject md (Or.inl h))))
    · exact Or.inr (Or.inr (Or.inr (classify_up_reject md (Or.inr (Or.inl h)))))
    · exact Or.inr (Or.inr (Or.inr (classify_up_reject md (Or.inr (Or.inr h)))))
  · intro hd
    refine ⟨?_, ?_, ?_, ?_, ?_, ?_⟩ <;> intro h <;> apply entryDecide_err_of p md <;> rw [hd]
    · exact Or.inl (validateTrendErr_down md (Or.inl h))
    · exact Or.inl (validateTrendErr_down md (Or.inr h))
    · exact Or.inr (Or.inr (Or.inl (validateFundingRateErr_down md h)))
    · exact Or.inr (Or.inr (Or.inr (classify_down_reject md (Or.inl h))))
    · exact Or.inr (Or.inr (Or.inr (classify_down_reject md (Or.inr (Or.inl h)))))
    · exact Or.inr (Or.inr (Or.inr (classify_down_reject md (Or.inr (Or.inr h)))))

/-- C8 witness: with ADX = 20 < 25 the entry is rejected. -/
theorem entryDecide_spec_witness :
    exceptIsOk (entryDecide upAcceptedPred chopMarket) = false :=
  (entryDecide_spec upAcceptedPred chopMarket).1 (by norm_num [entryADXMinimum, chopMarket])

/-- C10 witness: on a successful concrete call the returned prediction is
exactly the adjusted one. -/
theorem adjustPrediction_spec_witness :
    (⟨550, 10, 99, 102, adjustPrediction marginEdgePred (0 / 100 * 100)⟩ : CalcResult).adjusted
      = adjustPrediction marginEdgePred (0 / 100 * 100) :=
  adjustPrediction_spec.2.1 10 10 marginEdgePred 100 0 1000 1000
    ⟨550, 10, 99, 102, adjustPrediction marginEdgePred (0 / 100 * 100)⟩
    (by simp [calculatePositionFromPrediction, adjustPrediction, fixSigns, minCaseValueOf,
      raiseCase, enforceRR, payoffRatioOf, kellyOf, leverageFromRisk, baseLeverageFor,
      applyMarginCap, liqAdjustLeverage, truncQ, MinStopMultiple, LiquidationMarginRate,
      marginEdgePred]; norm_num)

/-- C6: `shouldClosePositionWithReason` applies its rules in order with first
match winning: direction flip (long+down or short+up, probability > 0.65,
held > 30 min); else hard stop when pnl < −20%; else profit-take when
pnl > 20% and the prediction is neutral; else stale when held > 24 h with
pnl < 5%; otherwise hold. -/
theorem shouldClose_spec (side : String) (pnl holdMin : ℚ) (dir : String) (prob : ℚ) :
    ((((side = "long" ∧ dir = "down") ∨ (side = "short" ∧ dir = "up"))
        ∧ prob > 65/100 ∧ holdMin > 30) →
      shouldClosePositionWithReason side pnl holdMin dir prob = some .directionFlip)
    ∧ (¬ ((((side = "long" ∧ dir = "down") ∨ (side = "short" ∧ dir = "up"))
        ∧ prob > 65/100 ∧ holdMin > 30)) →
        pnl < -20 →
        shouldClosePositionWithReason side pnl holdMin dir prob = some .hardStop)
    ∧ (¬ ((((side = "long" ∧ dir = "down") ∨ (side = "short" ∧ dir = "up"))
        ∧ prob > 65/100 ∧ holdMin > 30)) →
        ¬ (pnl < -20) →
        (pnl > 20 ∧ dir = "neutral") →
        shouldClosePositionWithReason side pnl holdMin dir prob = some .profitTake)
    ∧ (¬ ((((side = "long" ∧ dir = "down") ∨ (side = "short" ∧ dir = "up"))
        ∧ prob > 65/100 ∧ holdMin > 30)) →
        ¬ (pnl < -20) →
        ¬ (pnl > 20 ∧ dir = "neutral") →
        (holdMin > 24 * 60 ∧ pnl < 5) →
        shouldClosePositionWithReason side pnl holdMin dir prob = some .stale)
    ∧ (¬ ((((side = "long" ∧ dir = "down") ∨ (side = "short" ∧ dir = "up"))
        ∧ prob > 65/100 ∧ holdMin > 30)) →
        ¬ (pnl < -20) →
        ¬ (pnl > 20 ∧ dir = "neutral") →
        ¬ (holdMin > 24 * 60 ∧ pnl < 5) →
        shouldClosePositionWithReason side pnl holdMin dir prob = none) := by
  unfold shouldClosePositionWithReason
  refine ⟨?_, ?_, ?_, ?_, ?_⟩
  · rintro ⟨⟨hs, hd⟩ | ⟨hs, hd⟩, hprob, hmin⟩
    · rw [if_pos ⟨hs, hd, hprob, hmin⟩]
    · have h1 : ¬ (side = "long" ∧ dir = "down" ∧ prob > 65/100 ∧ holdMin > 30) := by
        rintro ⟨hs2, -, -, -⟩
        rw [hs] at hs2
        exact absurd hs2 (by decide)
      rw [if_neg h1, if_pos ⟨hs, hd, hprob, hmin⟩]
  · intro hn hpnl
    have h1 : ¬ (side = "long" ∧ dir = "down" ∧ prob > 65/100 ∧ holdMin > 30) :=
      fun ⟨hs, hd, hp, hm⟩ => hn ⟨Or.inl ⟨hs, hd⟩, hp, hm⟩
    have h2 : ¬ (side = "short" ∧ dir = "up" ∧ prob > 65/100 ∧ holdMin > 30) :=
      fun ⟨hs, hd, hp, hm⟩ => hn ⟨Or.inr ⟨hs, hd⟩, hp, hm⟩
    rw [if_neg h1, if_neg h2, if_pos hpnl]
  · intro hn hpnl hpt
    have h1 : ¬ (side = "long" ∧ dir = "down" ∧ prob > 65/100 ∧ holdMin > 30) :=
      fun ⟨hs, hd, hp, hm⟩ => hn ⟨Or.inl ⟨hs, hd⟩, hp, hm⟩
    have h2 : ¬ (side = "short" ∧ dir = "up" ∧ prob > 65/100 ∧ holdMin > 30) :=
      fun ⟨hs, hd, hp, hm⟩ => hn ⟨Or.inr ⟨hs, hd⟩, hp, hm⟩
    rw [if_neg h1, if_neg h2, if_neg hpnl, if_pos hpt]
  · intro hn hpnl hpt hst
    have h1 : ¬ (side = "long" ∧ dir = "down" ∧ prob > 65/100 ∧ holdMin > 30) :=
      fun ⟨hs, hd, hp, hm⟩ => hn ⟨Or.inl ⟨hs, hd⟩, hp, hm⟩
    have h2 : ¬ (side = "short" ∧ dir = "up" ∧ prob > 65/100 ∧ holdMin > 30) :=
      fun ⟨hs, hd, hp, hm⟩ => hn ⟨Or.inr ⟨hs, hd⟩, hp, hm⟩
    rw [if_neg h1, if_neg h2, if_neg hpnl, if_neg hpt, if_pos hst]
  · intro hn hpnl hpt hst
    have h1 : ¬ (side = "long" ∧ dir = "down" ∧ prob > 65/100 ∧ holdMin > 30) :=
      fun ⟨hs, hd, hp, hm⟩ => hn ⟨Or.inl ⟨hs, hd⟩, hp, hm⟩
    have h2 : ¬ (side = "short" ∧ dir = "up" ∧ prob > 65/100 ∧ holdMin > 30) :=
      fun ⟨hs, hd, hp, hm⟩ => hn ⟨Or.inr ⟨hs, hd⟩, hp, hm⟩
    rw [if_neg h1, if_neg h2, if_neg hpnl, if_neg hpt, if_neg hst]

/-- C6 witness: a long position held 45 minutes with a 70%-probability `down`
prediction is closed by the direction-flip rule. -/
theorem shouldClose_spec_witness :
    shouldClosePositionWithReason "long" 2 45 "down" (7/10) = some .directionFlip :=
  (shouldClose_spec "long" 2 45 "down" (7/10)).1
    ⟨Or.inl ⟨rfl, rfl⟩, by norm_num, by norm_num⟩

/-- C1 counterexample: in the code the drawdown-dependent probability floors
are 0.70 / 0.78 / 0.85 (not 0.68 / 0.70 / 0.75 as the table in the claim
states), and a loss of exactly −20.00% is NOT forbidden (the guard is the
strict `< -20`): at −7% the floor is 0.70 ≠ 0.68, at −12% it is 0.78 ≠ 0.70,
at −17% it is 0.85 ≠ 0.75, and at exactly −20% opening is allowed with
floor 0.85. -/
theorem requiredProb_cex :
    (requiredMinProbOf defaultMinProbability (-7)).1 = 70/100
    ∧ (requiredMinProbOf defaultMinProbability (-7)).1 ≠ 68/100
    ∧ (requiredMinProbOf defaultMinProbability (-12)).1 = 78/100
    ∧ (requiredMinProbOf defaultMinProbability (-12)).1 ≠ 70/100
    ∧ (requiredMinProbOf defaultMinProbability (-17)).1 = 85/100
    ∧ (requiredMinProbOf defaultMinProbability (-17)).1 ≠ 75/100
    ∧ requiredMinProbOf defaultMinProbability (-20) = (85/100, false)
    ∧ requiredMinProbOf defaultMinProbability (-20 - 1/100) = (101/100, true) := by
  refine ⟨?_, ?_, ?_, ?_, ?_, ?_, ?_, ?_⟩ <;>
    norm_num [requiredMinProbOf, defaultMinProbability]

/-- C1 amended: with the default base threshold 0.65, the minimum probability
floor is 0.65 for losses no worse than −5%, 0.70 for losses in [−10%, −5%),
0.78 in [−15%, −10%), 0.85 in [−20%, −15%), and opening is forbidden
(floor 1.01) only for losses strictly worse than −20% — so at exactly
−20.00% opening is still allowed at floor 0.85.  Close decisions are
computed by `shouldClosePositionWithReason`, which takes no account-drawdown
input at all, so closes still function (e.g. the hard stop fires). -/
theorem requiredProb_amended (pnl : ℚ) :
    (-5 ≤ pnl → requiredMinProbOf defaultMinProbability pnl = (65/100, false))
    ∧ (-10 ≤ pnl → pnl < -5 →
        requiredMinProbOf defaultMinProbability pnl = (70/100, false))
    ∧ (-15 ≤ pnl → pnl < -10 →
        requiredMinProbOf defaultMinProbability pnl = (78/100, false))
    ∧ (-20 ≤ pnl → pnl < -15 →
        requiredMinProbOf defaultMinProbability pnl = (85/100, false))
    ∧ (pnl < -20 → requiredMinProbOf defaultMinProbability pnl = (101/100, true))
    ∧ shouldClosePositionWithReason "long" (-25) 10 "up" (1/2) = some .hardStop := by
  refine ⟨?_, ?_, ?_, ?_, ?_, ?_⟩
  · intro h
    unfold requiredMinProbOf defaultMinProbability
    rw [if_neg (by linarith), if_neg (by linarith), if_neg (by linarith),
      if_neg (by linarith)]
  · intro h1 h2
    unfold requiredMinProbOf defaultMinProbability
    rw [if_neg (by linarith), if_neg (by linarith), if_neg (by linarith),
      if_pos (by linarith)]
    norm_num
  · intro h1 h2
    unfold requiredMinProbOf defaultMinProbability
    rw [if_neg (by linarith), if_neg (by linarith), if_pos (by linarith)]
    norm_num
  · intro h1 h2
    unfold requiredMinProbOf defaultMinProbability
    rw [if_neg (by linarith), if_pos (by linarith)]
    norm_num
  · intro h
    unfold requiredMinProbOf defaultMinProbability
    rw [if_pos (by linarith)]
  · norm_num [shouldClosePositionWithReason]

/-- C1 amended witness: at a −12% account loss the floor is 0.78 and opening
is not forbidden. -/
theorem requiredProb_amended_witness :
    requiredMinProbOf defaultMinProbability (-12) = (78/100, false) :=
  (requiredProb_amended (-12)).2.2.1 (by norm_num) (by norm_num)
